import Mathlib

/-!
Verification of the Cisco Meraki Dashboard API client (`src/task-4/main.py`)
against its natural-language specification.

The Python program is embedded shallowly:
* a Python dict with string keys and string values is an association list
  (`Dict`), with lookup (`dget`), membership (`dhas`) and in-place update
  (`dset`) mirroring CPython dict semantics (first occurrence replaced,
  new keys appended; keys of dicts built by the program are unique, so first
  occurrence and only occurrence coincide);
* arbitrary JSON bodies returned by the remote API are `PyVal`, with Python
  truthiness (`PyVal.truthy`) so that the `x or []` coalescing idiom of the
  fetchers can be modelled exactly;
* code that can raise returns `Except PyError _`; code performing network or
  file I/O takes the outcome of that I/O as an explicit parameter;
* the orchestrator `main` is embedded as a trace-producing function
  (`mainRun`) over an environment of fetch results, so that ordering and
  short-circuit claims become statements about the produced event list.
-/

set_option linter.unusedVariables false

namespace MerakiClient

/-- A Python dict with string keys and values, as an association list. -/
abbrev Dict := List (String × String)

/-- Python `d[k]` / `d.get(k)`: value at the first occurrence of key `k`. -/
def dget : Dict → String → Option String
  | [], _ => none
  | (k₀, v₀) :: rest, k => if k₀ = k then some v₀ else dget rest k

/-- Python `k in d`. -/
def dhas (d : Dict) (k : String) : Bool :=
  (dget d k).isSome

/-- Python `d[k] = v`: replace the value at the first occurrence of `k`,
or append `(k, v)` when `k` is absent. -/
def dset : Dict → String → String → Dict
  | [], k, v => [(k, v)]
  | (k₀, v₀) :: rest, k, v =>
    if k₀ = k then (k, v) :: rest else (k₀, v₀) :: dset rest k v

/-- The exceptions the embedded program can raise. -/
inductive PyError where
  | valueError (msg : String)
  | keyError (key : String)
  | requestError (msg : String)
deriving DecidableEq, Repr

/-- An arbitrary Python/JSON value, as needed for API response bodies. -/
inductive PyVal where
  | vnone
  | vbool (b : Bool)
  | vint (n : Int)
  | vstr (s : String)
  | vlist (xs : List PyVal)
  | vdict (entries : List (String × PyVal))

/-- Python truthiness of a `PyVal`. -/
def PyVal.truthy : PyVal → Bool
  | .vnone => false
  | .vbool b => b
  | .vint n => n != 0
  | .vstr s => s != ""
  | .vlist xs => !xs.isEmpty
  | .vdict es => !es.isEmpty

/-! Task 1: API authentication and setup

`get_api_key` reads `os.getenv('MERAKI_API_KEY')`; the environment is passed
in as `env : Option String` (`none` when the variable is unset). Python
`if not api_key` is true for `None` and for the empty string. -/

/-- Function `get_api_key` from `src/task-4/main.py`. -/
def get_api_key (env : Option String) : Except PyError String :=
  match env with
  | none => .error (.valueError "MERAKI_API_KEY not found in environment variables")
  | some api_key =>
    if api_key = "" then
      .error (.valueError "MERAKI_API_KEY not found in environment variables")
    else
      .ok api_key

/-- Function `get_headers` from `src/task-4/main.py`. -/
def get_headers (env : Option String) : Except PyError Dict :=
  match get_api_key env with
  | .error e => .error e
  | .ok key => .ok [("X-Cisco-Meraki-API-Key", key), ("Content-Type", "application/json")]

/-! Task 2: API client and data retrieval

`make_api_request` builds the headers (inside its `try` block: a missing key
raises `ValueError`, which the `except Exception` arm catches, so the
function returns `None` without the HTTP GET being attempted), then issues
the GET. The network interaction is abstracted by the parameter
`net : Except PyError PyVal`: the outcome of
`requests.get(...)`, `raise_for_status()` and `.json()` combined. The result
is the returned value (`none` models Python `None`), paired with a flag
recording whether the HTTP request was actually issued. -/

/-- Function `make_api_request` from `src/task-4/main.py`. The `Bool` component is
`true` iff the HTTP GET was issued. -/
def make_api_request (env : Option String) (net : Except PyError PyVal) :
    Option PyVal × Bool :=
  match get_headers env with
  | .error _ => (none, false)
  | .ok _ =>
    match net with
    | .error _ => (none, true)
    | .ok body => (some body, true)

/-- The `make_api_request(endpoint) or []` idiom shared by every fetcher:
Python `or` keeps the left operand when it is truthy and otherwise yields
the right operand (here the empty list). -/
def or_empty_list (result : Option PyVal) : PyVal :=
  match result with
  | none => .vlist []
  | some v => if v.truthy then v else .vlist []

/-- Function `get_organizations`: `make_api_request("/organizations") or []`, as a
function of the request result. -/
def get_organizations (apiResult : Option PyVal) : PyVal :=
  or_empty_list apiResult

/-- Function `get_networks(org_id)`: `make_api_request(f"/organizations/{org_id}/networks") or []`. -/
def get_networks (org_id : String) (apiResult : Option PyVal) : PyVal :=
  or_empty_list apiResult

/-- Function `get_network_inventory(network_id)`: `make_api_request(f"/networks/{network_id}/devices") or []`. -/
def get_network_inventory (network_id : String) (apiResult : Option PyVal) : PyVal :=
  or_empty_list apiResult

/-- Function `get_device_availabilities(network_id, serial)`. -/
def get_device_availabilities (network_id serial : String) (apiResult : Option PyVal) : PyVal :=
  or_empty_list apiResult

/-- Function `get_device_statuses(org_id)`: `make_api_request(f"/organizations/{org_id}/devices/statuses") or []`. -/
def get_device_statuses (org_id : String) (apiResult : Option PyVal) : PyVal :=
  or_empty_list apiResult

/-! Task 3: device status merge

`get_device_details(devices, statuses)` first builds
`status_lookup = {s['serial']: s['status'] for s in statuses if 'serial' in s}`
(left-to-right, so a duplicate serial overwrites the earlier entry; a record
with `'serial'` but without `'status'` raises `KeyError`), then for each
device copies it and sets `device_info['status']` to
`status_lookup.get(device['serial'], 'unknown')` (raising `KeyError` when the
device lacks `'serial'`). -/

/-- The dict comprehension of `get_device_details`, folded left-to-right over
`statuses` with accumulator `acc`. -/
def status_lookup_from (acc : Dict) : List Dict → Except PyError Dict
  | [] => .ok acc
  | s :: rest =>
    match dget s "serial" with
    | none => status_lookup_from acc rest
    | some serial =>
      match dget s "status" with
      | none => .error (.keyError "status")
      | some st => status_lookup_from (dset acc serial st) rest

/-- One iteration of the device loop of `get_device_details`:
`device_info = device.copy(); device_info['status'] = status_lookup.get(device['serial'], 'unknown')`. -/
def add_status (lookup device : Dict) : Except PyError Dict :=
  match dget device "serial" with
  | none => .error (.keyError "serial")
  | some serial => .ok (dset device "status" ((dget lookup serial).getD "unknown"))

/-- The device loop of `get_device_details` over the whole device list. -/
def add_statuses (lookup : Dict) : List Dict → Except PyError (List Dict)
  | [] => .ok []
  | device :: rest =>
    match add_status lookup device with
    | .error e => .error e
    | .ok d =>
      match add_statuses lookup rest with
      | .error e => .error e
      | .ok ds => .ok (d :: ds)

/-- Function `get_device_details` from `src/task-4/main.py`. -/
def get_device_details (devices statuses : List Dict) : Except PyError (List Dict) :=
  match status_lookup_from [] statuses with
  | .error e => .error e
  | .ok lookup => add_statuses lookup devices

/-! Task 4: persistence and reporting -/

/-- Function `save_to_file` from `src/task-4/main.py`: the body of the `try` block
(opening and writing the file) is abstracted by its outcome; `.ok` yields
`return True`, any raised exception is caught by `except Exception` and
yields `return False`, so no exception propagates to the caller. -/
def save_to_file (writeOutcome : Except PyError Unit) : Bool :=
  match writeOutcome with
  | .ok _ => true
  | .error _ => false

/-- Round-half-to-even (Python `round`) of the fraction `num / den`, for
`den > 0`, on exact integers. -/
def roundHalfEven (num den : ℤ) : ℤ :=
  let f := num.fdiv den
  let r := num - f * den
  if 2 * r < den then f
  else if den < 2 * r then f + 1
  else if f % 2 = 0 then f else f + 1

/-- Python `round(online / total * 100, 2)` on exact arithmetic, scaled to
hundredths of a percentage point so the result is an integer: the
half-to-even rounding of `online / total * 10000`. -/
def pyRound2 (online total : Nat) : ℤ :=
  roundHalfEven ((online : ℤ) * 10000) (total : ℤ)

/-- The `summary` sub-dict of the report. `availability_percentage` is kept
exactly, in hundredths of a percentage point (so `50.0%` is `5000`), instead
of as a binary float. -/
structure Summary where
  total_devices : Nat
  online_devices : Nat
  offline_devices : Nat
  availability_percentage : ℤ
deriving DecidableEq, Repr

/-- The report dict built by `generate_network_report`. -/
structure Report where
  timestamp : String
  organization : String
  network : String
  summary : Summary
  devices : List Dict
deriving DecidableEq, Repr

/-- Function `generate_network_report` from `src/task-4/main.py`. The wall-clock
timestamp `datetime.now().isoformat()` is passed in as `now`. The counting
loops read `d['status']`, which every merged device possesses because
`get_device_details` just set it. -/
def generate_network_report (now org_name network_name : String)
    (devices statuses : List Dict) : Except PyError Report :=
  match get_device_details devices statuses with
  | .error e => .error e
  | .ok detailed_devices =>
    let total_devices := detailed_devices.length
    let online_devices := (detailed_devices.filter (fun d => dget d "status" = some "online")).length
    let offline_devices := (detailed_devices.filter (fun d => dget d "status" = some "offline")).length
    .ok {
      timestamp := now
      organization := org_name
      network := network_name
      summary := {
        total_devices := total_devices
        online_devices := online_devices
        offline_devices := offline_devices
        availability_percentage :=
          if total_devices > 0 then pyRound2 online_devices total_devices
          else 0 }
      devices := detailed_devices }

/-! Orchestrator

`main` is embedded as a trace-producing function over the results the four
fetchers would return (each already coalesced to a list, as the fetchers
guarantee). Every observable action becomes an `Event`; the prints inside
`save_to_file` are not traced separately, and the per-field summary prints at
the end are represented by the single `"Network Report Summary:"` heading.
Dictionary subscripts that can raise `KeyError` jump to the top-level
`except Exception` handler, which prints an error message and returns. -/

/-- An observable action of `main`. -/
inductive Event where
  | fetchOrgs
  | fetchNetworks (orgId : String)
  | fetchInventory (networkId : String)
  | fetchStatuses (orgId : String)
  | saveFile (filename : String)
  | printMsg (text : String)
deriving DecidableEq, Repr

/-- The data the remote API would hand to each fetcher during a run of
`main`, after coalescing to lists of dicts. -/
structure ApiEnv where
  orgs : List Dict
  networks : String → List Dict
  inventory : String → List Dict
  statuses : String → List Dict

/-- Function `main` from `src/task-4/main.py`, as the trace of events it performs. -/
def mainRun (now : String) (env : ApiEnv) : List Event :=
  let t0 := [Event.printMsg "Fetching Meraki organization data...", Event.fetchOrgs]
  let organizations := env.orgs
  if organizations.isEmpty then
    t0 ++ [Event.printMsg "No organizations found or API error occurred."]
  else
    let t1 := t0 ++ [Event.saveFile "organizations.json"]
    let first_org := organizations.headD []
    match dget first_org "name" with
    | none => t1 ++ [Event.printMsg "Error: KeyError name"]
    | some orgName =>
      let t2 := t1 ++ [Event.printMsg ("Organization: " ++ orgName)]
      match dget first_org "id" with
      | none => t2 ++ [Event.printMsg "Error: KeyError id"]
      | some orgId =>
        let networks := env.networks orgId
        let t3 := t2 ++ [Event.fetchNetworks orgId]
        if networks.isEmpty then
          t3 ++ [Event.printMsg "No networks found."]
        else
          let t4 := t3 ++ [Event.saveFile "networks.json"]
          let first_network := networks.headD []
          match dget first_network "name" with
          | none => t4 ++ [Event.printMsg "Error: KeyError name"]
          | some netName =>
            let t5 := t4 ++ [Event.printMsg ("Network: " ++ netName)]
            match dget first_network "id" with
            | none => t5 ++ [Event.printMsg "Error: KeyError id"]
            | some netId =>
              let devices := env.inventory netId
              let t6 := t5 ++ [Event.fetchInventory netId,
                Event.printMsg ("Devices: " ++ toString devices.length ++ " found"),
                Event.saveFile "devices.json",
                Event.printMsg "Fetching device status information...",
                Event.fetchStatuses orgId]
              let statuses := env.statuses orgId
              if statuses.isEmpty then
                t6 ++ [Event.printMsg "Unable to retrieve device status information."]
              else
                let t7 := t6 ++ [Event.printMsg "Generating network report..."]
                match generate_network_report now orgName netName devices statuses with
                | .error _ => t7 ++ [Event.printMsg "Error: KeyError"]
                | .ok report =>
                  t7 ++ [Event.saveFile "network_report.json",
                    Event.printMsg "Network Report Summary:"]

/-! Auxiliary specification-level definitions and concrete example data. -/

/-- The last record of `statuses` whose `'serial'` entry equals `serial`
(the record whose status wins in the lookup dict). -/
def last_serial_record : List Dict → String → Option Dict
  | [], _ => none
  | s :: rest, serial =>
    match last_serial_record rest serial with
    | some s' => some s'
    | none => if dget s "serial" = some serial then some s else none

/-- Device inventory of the worked example of the spec. -/
def devsEx : List Dict :=
  [[("serial", "A"), ("model", "X")], [("serial", "B"), ("model", "Y")]]

/-- Status list of the worked example of the spec. -/
def stsEx : List Dict :=
  [[("serial", "A"), ("status", "online")]]

/-- The merged device list the example produces. -/
def resEx : List Dict :=
  [[("serial", "A"), ("model", "X"), ("status", "online")],
   [("serial", "B"), ("model", "Y"), ("status", "unknown")]]

/-- A status list holding two records for the same serial. -/
def stsDup : List Dict :=
  [[("serial", "A"), ("status", "offline")],
   [("serial", "A"), ("status", "online")]]

/-- The merged device list for `devsEx` against `stsDup`. -/
def resDup : List Dict :=
  [[("serial", "A"), ("model", "X"), ("status", "online")],
   [("serial", "B"), ("model", "Y"), ("status", "unknown")]]

/-- The report the worked example produces. -/
def reportEx : Report :=
  { timestamp := "t"
    organization := "O"
    network := "N"
    summary := { total_devices := 2, online_devices := 1, offline_devices := 0,
                 availability_percentage := 5000 }
    devices := resEx }

/-- A run environment whose inventory fetch comes back empty while
organizations, networks and statuses are all present. -/
def envEmptyDevices : ApiEnv :=
  { orgs := [[("name", "Org1"), ("id", "O1")]]
    networks := fun _ => [[("name", "Net1"), ("id", "N1")]]
    inventory := fun _ => []
    statuses := fun _ => [[("serial", "A"), ("status", "online")]] }

/-- A run environment whose organizations fetch comes back empty. -/
def envNoOrgs : ApiEnv :=
  { orgs := []
    networks := fun _ => []
    inventory := fun _ => []
    statuses := fun _ => [] }

/-! Dictionary lemmas. -/

theorem dget_dset_self (d : Dict) (k v : String) : dget (dset d k v) k = some v := by
  induction d with
  | nil => simp [dset, dget]
  | cons p rest ih =>
    obtain ⟨k₀, v₀⟩ := p
    by_cases h : k₀ = k
    · simp [dset, h, dget]
    · simp [dset, h, dget, ih]

theorem dget_dset_ne (d : Dict) (k v k' : String) (h : k' ≠ k) :
    dget (dset d k v) k' = dget d k' := by
  induction d with
  | nil => simp [dset, dget, Ne.symm h]
  | cons p rest ih =>
    obtain ⟨k₀, v₀⟩ := p
    by_cases hk : k₀ = k
    · subst hk
      simp [dset, dget, Ne.symm h]
    · simp [dset, hk, dget, ih]

/-! Characterization of the status lookup dict built by `get_device_details`. -/

theorem last_serial_record_of_none (l : List Dict) (serial : String)
    (h : ∀ s ∈ l, ¬ dget s "serial" = some serial) :
    last_serial_record l serial = none := by
  induction l with
  | nil => rfl
  | cons s rest ih =>
    have hs := h s (by simp)
    have hr : ∀ x ∈ rest, ¬ dget x "serial" = some serial := fun x hx => h x (by simp [hx])
    simp [last_serial_record, ih hr, hs]

theorem last_serial_record_append (l₁ l₂ : List Dict) (serial : String) :
    last_serial_record (l₁ ++ l₂) serial =
      match last_serial_record l₂ serial with
      | some s => some s
      | none => last_serial_record l₁ serial := by
  induction l₁ with
  | nil =>
    simp only [List.nil_append]
    cases last_serial_record l₂ serial <;> rfl
  | cons s rest ih =>
    simp only [List.cons_append, last_serial_record, List.append_eq]
    rw [ih]
    cases last_serial_record l₂ serial <;> cases last_serial_record rest serial <;> simp

theorem status_lookup_from_dget (serial : String) :
    ∀ (ss : List Dict) (acc d : Dict), status_lookup_from acc ss = .ok d →
      dget d serial =
        match last_serial_record ss serial with
        | some s => dget s "status"
        | none => dget acc serial := by
  intro ss
  induction ss with
  | nil =>
    intro acc d h
    simp only [status_lookup_from] at h
    injection h with h
    subst h
    simp [last_serial_record]
  | cons s rest ih =>
    intro acc d h
    simp only [status_lookup_from] at h
    cases hser : dget s "serial" with
    | none =>
      simp only [hser] at h
      rw [ih acc d h]
      simp only [last_serial_record, hser]
      cases hl : last_serial_record rest serial <;> simp
    | some serial₀ =>
      simp only [hser] at h
      cases hst : dget s "status" with
      | none => simp only [hst] at h; cases h
      | some st₀ =>
        simp only [hst] at h
        rw [ih (dset acc serial₀ st₀) d h]
        simp only [last_serial_record, hser]
        cases hl : last_serial_record rest serial with
        | some s' => simp
        | none =>
          by_cases hserial : serial₀ = serial
          · subst hserial
            simp [hst, dget_dset_self]
          · simp [hserial, dget_dset_ne _ _ _ _ (Ne.symm hserial)]

theorem status_lookup_from_ok_hasStatus :
    ∀ (ss : List Dict) (acc d : Dict), status_lookup_from acc ss = .ok d →
      ∀ s ∈ ss, (dget s "serial").isSome → (dget s "status").isSome := by
  intro ss
  induction ss with
  | nil => intro acc d h s hs; cases hs
  | cons s₀ rest ih =>
    intro acc d h s hs hser
    simp only [status_lookup_from] at h
    cases hser₀ : dget s₀ "serial" with
    | none =>
      simp only [hser₀] at h
      rcases List.mem_cons.mp hs with rfl | hs'
      · simp [hser₀] at hser
      · exact ih acc d h s hs' hser
    | some x =>
      simp only [hser₀] at h
      cases hst : dget s₀ "status" with
      | none => simp only [hst] at h; cases h
      | some st =>
        simp only [hst] at h
        rcases List.mem_cons.mp hs with rfl | hs'
        · simp [hst]
        · exact ih _ d h s hs' hser

theorem status_lookup_from_isOk (ss : List Dict)
    (h : ∀ s ∈ ss, (dget s "serial").isSome → (dget s "status").isSome) :
    ∀ acc, ∃ d, status_lookup_from acc ss = .ok d := by
  induction ss with
  | nil => intro acc; exact ⟨acc, rfl⟩
  | cons s rest ih =>
    intro acc
    have hrest : ∀ x ∈ rest, (dget x "serial").isSome → (dget x "status").isSome :=
      fun x hx hs => h x (List.mem_cons_of_mem _ hx) hs
    simp only [status_lookup_from]
    cases hser : dget s "serial" with
    | none => exact ih hrest acc
    | some serial =>
      have hsome := h s (by simp) (by simp [hser])
      cases hst : dget s "status" with
      | none => simp [hst] at hsome
      | some st => exact ih hrest (dset acc serial st)

/-! Lemmas about the device loop of `get_device_details`. -/

theorem add_statuses_isOk (lookup : Dict) (devices : List Dict)
    (h : ∀ d ∈ devices, (dget d "serial").isSome) :
    ∃ res, add_statuses lookup devices = .ok res := by
  induction devices with
  | nil => exact ⟨[], rfl⟩
  | cons dev rest ih =>
    obtain ⟨res, hres⟩ := ih (fun x hx => h x (List.mem_cons_of_mem _ hx))
    have hdev := h dev (by simp)
    cases hser : dget dev "serial" with
    | none => simp [hser] at hdev
    | some serial =>
      refine ⟨dset dev "status" ((dget lookup serial).getD "unknown") :: res, ?_⟩
      simp [add_statuses, add_status, hser, hres]

theorem add_statuses_ok_length :
    ∀ (devices : List Dict) (lookup : Dict) (res : List Dict),
      add_statuses lookup devices = .ok res → res.length = devices.length := by
  intro devices
  induction devices with
  | nil => intro lookup res h; injection h with h; subst h; rfl
  | cons dev rest ih =>
    intro lookup res h
    simp only [add_statuses] at h
    cases ha : add_status lookup dev with
    | error e => simp [ha] at h
    | ok d =>
      simp only [ha] at h
      cases hr : add_statuses lookup rest with
      | error e => simp [hr] at h
      | ok ds =>
        simp only [hr] at h
        injection h with h
        subst h
        simp [ih lookup ds hr]

theorem add_statuses_ok_get :
    ∀ (devices : List Dict) (lookup : Dict) (res : List Dict) (i : Nat),
      add_statuses lookup devices = .ok res → i < devices.length →
      add_status lookup (devices.getD i []) = .ok (res.getD i []) := by
  intro devices
  induction devices with
  | nil => intro lookup res i h hi; exact absurd hi (Nat.not_lt_zero i)
  | cons dev rest ih =>
    intro lookup res i h hi
    simp only [add_statuses] at h
    cases ha : add_status lookup dev with
    | error e => simp [ha] at h
    | ok d =>
      simp only [ha] at h
      cases hr : add_statuses lookup rest with
      | error e => simp [hr] at h
      | ok ds =>
        simp only [hr] at h
        injection h with h
        subst h
        cases i with
        | zero => simpa using ha
        | succ n =>
          have hn : n < rest.length := Nat.lt_of_succ_lt_succ (by simpa using hi)
          simpa using ih lookup ds n hr hn

theorem get_device_details_ok (devices statuses res : List Dict)
    (h : get_device_details devices statuses = .ok res) :
    ∃ lookup, status_lookup_from [] statuses = .ok lookup ∧
      add_statuses lookup devices = .ok res := by
  unfold get_device_details at h
  cases hls : status_lookup_from [] statuses with
  | error e => rw [hls] at h; cases h
  | ok lookup => rw [hls] at h; exact ⟨lookup, rfl, h⟩

theorem get_device_details_status_eq (devices statuses res : List Dict)
    (i : Nat) (serial : String)
    (h : get_device_details devices statuses = .ok res)
    (hi : i < devices.length)
    (hser : dget (devices.getD i []) "serial" = some serial) :
    ∃ lookup, status_lookup_from [] statuses = .ok lookup ∧
      dget (res.getD i []) "status" = some ((dget lookup serial).getD "unknown") := by
  obtain ⟨lookup, h1, h2⟩ := get_device_details_ok devices statuses res h
  have hadd := add_statuses_ok_get devices lookup res i h2 hi
  unfold add_status at hadd
  simp only [hser] at hadd
  injection hadd with hadd
  refine ⟨lookup, h1, ?_⟩
  rw [← hadd, dget_dset_self]

theorem status_lookup_from_filter (statuses : List Dict) :
    ∀ acc, status_lookup_from acc (statuses.filter (fun s => dhas s "serial")) =
      status_lookup_from acc statuses := by
  induction statuses with
  | nil => intro acc; rfl
  | cons s rest ih =>
    intro acc
    cases hs : dhas s "serial" with
    | false =>
      simp only [List.filter_cons, hs, Bool.false_eq_true, if_false]
      simp only [status_lookup_from]
      cases hser : dget s "serial" with
      | none => exact ih acc
      | some serial => simp [dhas, hser] at hs
    | true =>
      simp only [List.filter_cons, hs, if_true]
      simp only [status_lookup_from]
      cases hser : dget s "serial" with
      | none => simp [dhas, hser] at hs
      | some serial =>
        cases hst : dget s "status" with
        | none => rfl
        | some st => exact ih (dset acc serial st)

/-! The claims about `get_device_details`. -/

/-- C1: for every device list and status list, a successful
`get_device_details(devices, statuses)` returns a list of the same length as
`devices`, in the same order, and every output record's fields other than
`'status'` equal the corresponding input device's fields exactly. -/
theorem get_device_details_preserves_fields (devices statuses res : List Dict)
    (h : get_device_details devices statuses = .ok res) :
    res.length = devices.length ∧
    ∀ i, i < devices.length → ∀ k, k ≠ "status" →
      dget (res.getD i []) k = dget (devices.getD i []) k := by
  obtain ⟨lookup, h1, h2⟩ := get_device_details_ok devices statuses res h
  refine ⟨add_statuses_ok_length devices lookup res h2, ?_⟩
  intro i hi k hk
  have hadd := add_statuses_ok_get devices lookup res i h2 hi
  unfold add_status at hadd
  cases hser : dget (devices.getD i []) "serial" with
  | none => simp only [hser] at hadd; cases hadd
  | some serial =>
    simp only [hser] at hadd
    injection hadd with hadd
    rw [← hadd, dget_dset_ne _ _ _ _ hk]

/-- Witness for C1 on the worked example of the spec. -/
theorem get_device_details_preserves_fields_witness :
    resEx.length = devsEx.length ∧
    dget (resEx.getD 0 []) "model" = dget (devsEx.getD 0 []) "model" :=
  ⟨(get_device_details_preserves_fields devsEx stsEx resEx rfl).1,
   (get_device_details_preserves_fields devsEx stsEx resEx rfl).2 0 (by decide) "model" (by decide)⟩

/-- C2: a device whose serial matches no status record gets the literal
status `"unknown"`, and a device whose serial matches exactly one status
record gets exactly that record's status. -/
theorem get_device_details_status_default_and_unique (devices statuses res : List Dict)
    (i : Nat) (serial : String)
    (h : get_device_details devices statuses = .ok res)
    (hi : i < devices.length)
    (hser : dget (devices.getD i []) "serial" = some serial) :
    ((∀ s ∈ statuses, ¬ dget s "serial" = some serial) →
      dget (res.getD i []) "status" = some "unknown") ∧
    (∀ pre s₀ post, statuses = pre ++ s₀ :: post →
      dget s₀ "serial" = some serial →
      (∀ s ∈ pre, ¬ dget s "serial" = some serial) →
      (∀ s ∈ post, ¬ dget s "serial" = some serial) →
      dget (res.getD i []) "status" = dget s₀ "status") := by
  obtain ⟨lookup, h1, hstat⟩ := get_device_details_status_eq devices statuses res i serial h hi hser
  have hlget := status_lookup_from_dget serial statuses [] lookup h1
  constructor
  · intro hnone
    rw [last_serial_record_of_none statuses serial hnone] at hlget
    simp only [dget] at hlget
    rw [hstat, hlget]
    rfl
  · intro pre s₀ post hsplit hs₀ hpre hpost
    subst hsplit
    have hp := last_serial_record_of_none post serial hpost
    rw [last_serial_record_append] at hlget
    simp only [last_serial_record, hp, hs₀, if_true] at hlget
    have hmem : s₀ ∈ pre ++ s₀ :: post := by simp
    have hsome := status_lookup_from_ok_hasStatus (pre ++ s₀ :: post) [] lookup h1 s₀ hmem
      (by simp [hs₀])
    obtain ⟨st, hst⟩ := Option.isSome_iff_exists.mp hsome
    rw [hstat, hlget, hst]
    rfl

/-- Witness for C2: device `B` of the worked example has no status record
and comes out with status `"unknown"`. -/
theorem get_device_details_status_default_witness :
    dget (resEx.getD 1 []) "status" = some "unknown" :=
  (get_device_details_status_default_and_unique devsEx stsEx resEx 1 "B" rfl
    (by decide) (by decide)).1 (by decide)

/-- C8: when several status records carry the same serial, the device with
that serial receives the status of the last such record in the list. -/
theorem get_device_details_last_write_wins (devices statuses res pre post : List Dict)
    (s₀ : Dict) (i : Nat) (serial : String)
    (h : get_device_details devices statuses = .ok res)
    (hi : i < devices.length)
    (hser : dget (devices.getD i []) "serial" = some serial)
    (hsplit : statuses = pre ++ s₀ :: post)
    (hs₀ : dget s₀ "serial" = some serial)
    (hpost : ∀ s ∈ post, ¬ dget s "serial" = some serial) :
    dget (res.getD i []) "status" = dget s₀ "status" := by
  subst hsplit
  obtain ⟨lookup, h1, hstat⟩ :=
    get_device_details_status_eq devices (pre ++ s₀ :: post) res i serial h hi hser
  have hlget := status_lookup_from_dget serial (pre ++ s₀ :: post) [] lookup h1
  have hp := last_serial_record_of_none post serial hpost
  rw [last_serial_record_append] at hlget
  simp only [last_serial_record, hp, hs₀, if_true] at hlget
  have hmem : s₀ ∈ pre ++ s₀ :: post := by simp
  have hsome := status_lookup_from_ok_hasStatus (pre ++ s₀ :: post) [] lookup h1 s₀ hmem
    (by simp [hs₀])
  obtain ⟨st, hst⟩ := Option.isSome_iff_exists.mp hsome
  rw [hstat, hlget, hst]
  rfl

/-- Witness for C8: with two records for serial `A`, first `"offline"` then
`"online"`, device `A` comes out `"online"`. -/
theorem get_device_details_last_write_wins_witness :
    dget (resDup.getD 0 []) "status" = dget [("serial", "A"), ("status", "online")] "status" :=
  get_device_details_last_write_wins devsEx stsDup resDup
    [[("serial", "A"), ("status", "offline")]] [] [("serial", "A"), ("status", "online")]
    0 "A" rfl (by decide) (by decide) rfl (by decide) (by decide)

/-- C9: when every device has a `'serial'` key and every status record that
has `'serial'` also has `'status'`, `get_device_details` raises nothing:
the embedding's error branch is unreachable. -/
theorem get_device_details_total (devices statuses : List Dict)
    (hdev : ∀ d ∈ devices, (dget d "serial").isSome)
    (hst : ∀ s ∈ statuses, (dget s "serial").isSome → (dget s "status").isSome) :
    ∃ res, get_device_details devices statuses = .ok res := by
  obtain ⟨lookup, hl⟩ := status_lookup_from_isOk statuses hst []
  obtain ⟨res, hr⟩ := add_statuses_isOk lookup devices hdev
  exact ⟨res, by simp [get_device_details, hl, hr]⟩

/-- Witness for C9 on the worked example. -/
theorem get_device_details_total_witness :
    ∃ res, get_device_details devsEx stsEx = .ok res :=
  get_device_details_total devsEx stsEx (by decide) (by decide)

/-- C10: status records lacking a `'serial'` key never influence the output
of `get_device_details`: dropping them leaves the result unchanged. -/
theorem get_device_details_filter_serial (devices statuses : List Dict) :
    get_device_details devices (statuses.filter (fun s => dhas s "serial")) =
      get_device_details devices statuses := by
  unfold get_device_details
  rw [status_lookup_from_filter]

/-! The report summary (claim C3). -/

theorem filter_length_add_filter_length_le {α : Type} (p q : α → Bool)
    (hdisj : ∀ x, p x = true → q x = true → False) :
    ∀ l : List α, (l.filter p).length + (l.filter q).length ≤ l.length := by
  intro l
  induction l with
  | nil => simp
  | cons a l ih =>
    cases hp : p a with
    | true =>
      cases hq : q a with
      | true => exact (hdisj a hp hq).elim
      | false =>
        simp only [List.filter_cons, hp, hq, if_true, Bool.false_eq_true, if_false,
          List.length_cons]
        omega
    | false =>
      cases hq : q a with
      | true =>
        simp only [List.filter_cons, hp, hq, if_true, Bool.false_eq_true, if_false,
          List.length_cons]
        omega
      | false =>
        simp only [List.filter_cons, hp, hq, Bool.false_eq_true, if_false, List.length_cons]
        omega

/-- C3: a successful report satisfies `online + offline <= total`,
`total = len(devices)`, and the availability percentage is `0` for an empty
inventory and `round(online / total * 100, 2)` otherwise. -/
theorem generate_network_report_summary (now org_name network_name : String)
    (devices statuses : List Dict) (r : Report)
    (h : generate_network_report now org_name network_name devices statuses = .ok r) :
    r.summary.online_devices + r.summary.offline_devices ≤ r.summary.total_devices ∧
    r.summary.total_devices = devices.length ∧
    r.summary.availability_percentage =
      (if devices.length = 0 then 0
       else pyRound2 r.summary.online_devices devices.length) := by
  unfold generate_network_report at h
  cases hd : get_device_details devices statuses with
  | error e => rw [hd] at h; cases h
  | ok detailed =>
    rw [hd] at h
    injection h with h
    subst h
    obtain ⟨lookup, -, h2⟩ := get_device_details_ok devices statuses detailed hd
    have hlen := add_statuses_ok_length devices lookup detailed h2
    refine ⟨?_, ?_, ?_⟩
    · dsimp only
      refine filter_length_add_filter_length_le _ _ ?_ detailed
      intro d h1 h2
      simp only [decide_eq_true_eq] at h1 h2
      rw [h1] at h2
      exact absurd (Option.some.inj h2) (by decide)
    · dsimp only
      exact hlen
    · dsimp only
      rw [hlen]
      by_cases h0 : devices.length = 0
      · simp [h0]
      · have hpos : 0 < devices.length := Nat.pos_of_ne_zero h0
        simp [h0, hpos]

/-- Witness for C3 on the worked example: total 2, online 1, offline 0,
availability 50.00 percent. -/
theorem generate_network_report_summary_witness :
    reportEx.summary.online_devices + reportEx.summary.offline_devices ≤
      reportEx.summary.total_devices ∧
    reportEx.summary.total_devices = devsEx.length ∧
    reportEx.summary.availability_percentage =
      (if devsEx.length = 0 then 0
       else pyRound2 reportEx.summary.online_devices devsEx.length) :=
  generate_network_report_summary "t" "O" "N" devsEx stsEx reportEx rfl

/-! The resource fetchers (claim C4). -/

/-- Counterexample to C4 as stated: when the request succeeds with an empty
JSON object, the fetcher does not return that body verbatim but coalesces
it (a falsy value) to the empty list, although the request result was not
null. -/
theorem fetchers_not_verbatim_counterexample :
    get_organizations (some (PyVal.vdict [])) = PyVal.vlist [] ∧
    get_organizations (some (PyVal.vdict [])) ≠ PyVal.vdict [] ∧
    (some (PyVal.vdict []) : Option PyVal) ≠ none := by
  refine ⟨rfl, ?_, ?_⟩ <;> intro h <;>
    simp [get_organizations, or_empty_list, PyVal.truthy] at h

/-- C4 amended: every fetcher returns `make_api_request(...) or []`, so it
returns the empty list exactly when the request result is null or a falsy
body, and returns the body verbatim whenever the body is truthy. -/
theorem fetchers_coalesce_falsy (r : Option PyVal) :
    (or_empty_list r = PyVal.vlist [] ↔
      r = none ∨ ∃ v, r = some v ∧ v.truthy = false) ∧
    (∀ v, r = some v → v.truthy = true → or_empty_list r = v) ∧
    get_organizations r = or_empty_list r ∧
    (∀ oid, get_networks oid r = or_empty_list r) ∧
    (∀ nid, get_network_inventory nid r = or_empty_list r) ∧
    (∀ oid, get_device_statuses oid r = or_empty_list r) ∧
    (∀ nid serial, get_device_availabilities nid serial r = or_empty_list r) := by
  refine ⟨?_, ?_, rfl, fun _ => rfl, fun _ => rfl, fun _ => rfl, fun _ _ => rfl⟩
  · cases r with
    | none => simp [or_empty_list]
    | some v =>
      cases ht : v.truthy with
      | false => simp [or_empty_list, ht]
      | true =>
        simp only [or_empty_list, ht, if_true]
        constructor
        · intro hv
          subst hv
          simp [PyVal.truthy] at ht
        · rintro (h | ⟨w, hw, hwt⟩)
          · exact Option.noConfusion h
          · injection hw with hw
            subst hw
            simp [hwt] at ht
  · rintro v rfl ht
    simp [or_empty_list, ht]

/-- Witness for C4 (amended) on a truthy body. -/
theorem fetchers_coalesce_falsy_witness :
    or_empty_list (some (PyVal.vstr "x")) = PyVal.vstr "x" :=
  (fetchers_coalesce_falsy (some (PyVal.vstr "x"))).2.1 (PyVal.vstr "x") rfl rfl

/-! Persistence (claim C5). -/

/-- C5: `save_to_file` returns `True` exactly when the write succeeded and
`False` exactly when opening or writing raised; the exception is caught
inside the function (its result type is a plain boolean, so nothing
propagates to the caller). -/
theorem save_to_file_reports_failure (w : Except PyError Unit) :
    (save_to_file w = true ↔ w = .ok ()) ∧
    (save_to_file w = false ↔ ∃ e, w = .error e) := by
  cases w with
  | ok u => cases u; simp [save_to_file]
  | error e => simp [save_to_file]

/-- Witness for C5: a failed write comes back as `False`. -/
theorem save_to_file_reports_failure_witness :
    save_to_file (.error (.requestError "permission denied")) = false :=
  (save_to_file_reports_failure (.error (.requestError "permission denied"))).2.mpr
    ⟨.requestError "permission denied", rfl⟩

/-! Configuration errors (claim C6). -/

/-- C6: an unset or empty API key environment variable makes `get_api_key`
raise `ValueError` (a configuration error, not a generic exception), and in
`make_api_request` this happens while building headers, before the HTTP GET
is issued. -/
theorem get_api_key_config_error (env : Option String)
    (h : env = none ∨ env = some "") :
    get_api_key env =
      .error (.valueError "MERAKI_API_KEY not found in environment variables") ∧
    ∀ net, (make_api_request env net).2 = false := by
  rcases h with rfl | rfl
  · exact ⟨rfl, fun net => rfl⟩
  · exact ⟨rfl, fun net => rfl⟩

/-- Witness for C6 with the variable unset. -/
theorem get_api_key_config_error_witness :
    get_api_key none =
      .error (.valueError "MERAKI_API_KEY not found in environment variables") ∧
    (make_api_request none (.ok (PyVal.vlist []))).2 = false :=
  ⟨(get_api_key_config_error none (Or.inl rfl)).1,
   (get_api_key_config_error none (Or.inl rfl)).2 (.ok (PyVal.vlist []))⟩

/-! The orchestrator (claim C7). -/

/-- Counterexample to C7 as stated: in a run whose device inventory fetch
comes back empty, `main` does not short-circuit: it still saves
`devices.json` and still fetches device statuses afterwards. -/
theorem mainRun_empty_devices_continues :
    envEmptyDevices.inventory "N1" = [] ∧
    Event.saveFile "devices.json" ∈ mainRun "t" envEmptyDevices ∧
    Event.fetchStatuses "O1" ∈ mainRun "t" envEmptyDevices := by
  refine ⟨rfl, ?_, ?_⟩ <;> decide

/-- C7 amended: an empty organizations list or an empty networks list
short-circuits `main` with a printed message and a clean exit, with no
further fetch or save call; an empty statuses list prints a message and ends
the run without generating or saving the report; but an empty device
inventory does not short-circuit: `devices.json` is still saved and device
statuses are still fetched. -/
theorem mainRun_short_circuits (now : String) (env : ApiEnv) :
    (env.orgs = [] →
      mainRun now env =
        [Event.printMsg "Fetching Meraki organization data...", Event.fetchOrgs,
         Event.printMsg "No organizations found or API error occurred."]) ∧
    (∀ o os orgName orgId,
      env.orgs = o :: os → dget o "name" = some orgName → dget o "id" = some orgId →
      env.networks orgId = [] →
      mainRun now env =
        [Event.printMsg "Fetching Meraki organization data...", Event.fetchOrgs,
         Event.saveFile "organizations.json",
         Event.printMsg ("Organization: " ++ orgName),
         Event.fetchNetworks orgId,
         Event.printMsg "No networks found."]) ∧
    (∀ o os orgName orgId n ns netName netId,
      env.orgs = o :: os → dget o "name" = some orgName → dget o "id" = some orgId →
      env.networks orgId = n :: ns → dget n "name" = some netName →
      dget n "id" = some netId → env.statuses orgId = [] →
      mainRun now env =
        [Event.printMsg "Fetching Meraki organization data...", Event.fetchOrgs,
         Event.saveFile "organizations.json",
         Event.printMsg ("Organization: " ++ orgName),
         Event.fetchNetworks orgId,
         Event.saveFile "networks.json",
         Event.printMsg ("Network: " ++ netName),
         Event.fetchInventory netId,
         Event.printMsg ("Devices: " ++ toString (env.inventory netId).length ++ " found"),
         Event.saveFile "devices.json",
         Event.printMsg "Fetching device status information...",
         Event.fetchStatuses orgId,
         Event.printMsg "Unable to retrieve device status information."]) := by
  refine ⟨?_, ?_, ?_⟩
  · intro h
    simp [mainRun, h]
  · intro o os orgName orgId h1 h2 h3 h4
    simp [mainRun, h1, h2, h3, h4]
  · intro o os orgName orgId n ns netName netId h1 h2 h3 h4 h5 h6 h7
    simp [mainRun, h1, h2, h3, h4, h5, h6, h7]

/-- Witness for the amended C7 on a concrete environment with no
organizations. -/
theorem mainRun_short_circuits_witness :
    mainRun "t" envNoOrgs =
      [Event.printMsg "Fetching Meraki organization data...", Event.fetchOrgs,
       Event.printMsg "No organizations found or API error occurred."] :=
  (mainRun_short_circuits "t" envNoOrgs).1 rfl

end MerakiClient
